import Mathlib

/-!
# Verification of the ECG Research Console's derived-metrics layer

A shallow embedding, in Lean 4, of the pure client-side computations of the
ECG Research Console UI: the session normalizer (`coerceNumber`,
`evaluateSignalQuality`, `normalizeFeatures`, `adaptCollectResponse`), the
participant aggregator (`buildParticipantsFromSessions`), the attempt ledger
(`recordAttempt`, `relabelAttempt`), the analytics engine (`far`, `frr`,
`eer`) and the continuous-monitor summarizer (`continuousSummary`).

Modelling conventions for the JavaScript/TypeScript source:
* JavaScript numbers are rationals (`ℚ`); `NaN` is modelled explicitly as the
  `none` case of `JNum := Option ℚ`.  Backend payloads arrive as JSON, which
  cannot carry `NaN`, so a raw *number* field is always a rational; `NaN`
  only arises from `Number(string)` conversions of non-numeric strings.
* A raw JSON value in an untyped payload is a `JVal`: a number, a string
  (represented by the result of JavaScript's `Number()` conversion on it,
  `none` when that conversion yields `NaN`, e.g. for the string "abc"),
  `null`, `undefined` (an absent key), or any other value (boolean, object,
  array), which `Number`-coercion in the source never inspects further.
* An untyped backend record (a `Record` of `string` to `unknown` in the
  source) is a total function `String → JVal`; a key that is absent maps to
  `JVal.undef`.
* JavaScript comparison operators return `false` when an operand is `NaN`;
  the `jge`/`jle`/`jlt`/`jgt` helpers encode exactly that.
-/

namespace EcgUI

/-- A JavaScript number that may be `NaN` (`none` is `NaN`). -/
abbrev JNum := Option ℚ

/-- A raw JSON/JavaScript value as seen by the normalizer.  A string is
represented by the result of JavaScript's `Number()` conversion on it
(`none` when the string is non-numeric and `Number` yields `NaN`). -/
inductive JVal where
  | num (q : ℚ)
  | str (numberValue : Option ℚ)
  | nullv
  | undef
  | other
deriving DecidableEq

/-- JavaScript nullish test (`null` or `undefined`), as used by `??`. -/
def JVal.nullish : JVal → Bool
  | .nullv => true
  | .undef => true
  | _ => false

/-- The JavaScript nullish-coalescing operator `a ?? b`. -/
def jcoalesce (a b : JVal) : JVal := if a.nullish then b else a

/-- `coerceNumber` from `src/api/client.ts`:
`typeof value === 'number'` returns it unchanged, a string goes through
`Number(value)` (which may yield `NaN`), and every other value becomes `0`. -/
def coerceNumber : JVal → JNum
  | .num q => some q
  | .str p => p
  | _ => some 0

/-- JavaScript `a >= c` on a possibly-`NaN` left operand (`false` on `NaN`). -/
def jge (a : JNum) (c : ℚ) : Bool :=
  match a with
  | some q => decide (c ≤ q)
  | none => false

/-- JavaScript `a <= c` on a possibly-`NaN` left operand (`false` on `NaN`). -/
def jle (a : JNum) (c : ℚ) : Bool :=
  match a with
  | some q => decide (q ≤ c)
  | none => false

/-- JavaScript `a < c` on a possibly-`NaN` left operand (`false` on `NaN`). -/
def jlt (a : JNum) (c : ℚ) : Bool :=
  match a with
  | some q => decide (q < c)
  | none => false

/-- JavaScript `a > c` on a possibly-`NaN` left operand (`false` on `NaN`). -/
def jgt (a : JNum) (c : ℚ) : Bool :=
  match a with
  | some q => decide (c < q)
  | none => false

/-- Subtraction on JavaScript numbers; `NaN` propagates. -/
def jsub (a b : JNum) : JNum :=
  match a, b with
  | some x, some y => some (x - y)
  | _, _ => none

/-- `Math.max` on JavaScript numbers; `NaN` propagates. -/
def jmax (a b : JNum) : JNum :=
  match a, b with
  | some x, some y => some (if x ≤ y then y else x)
  | _, _ => none

/-- JavaScript `a || b` on a number `a` (falsy iff `0`, `-0` or `NaN`). -/
def jsOr (a b : JNum) : JNum :=
  match a with
  | some q => if q = 0 then b else some q
  | none => b

/-- `SignalQuality` from `src/types.ts`: `'good' | 'medium' | 'poor'`. -/
inductive SignalQuality where
  | good
  | medium
  | poor
deriving DecidableEq

/-- `EcgFeatureSet` from `src/types.ts` (the later, extended revision). All
numeric fields are JavaScript numbers, hence `JNum`. -/
structure EcgFeatureSet where
  estimatedBpm : JNum
  peakCount : JNum
  mean : JNum
  std : JNum
  rms : JNum
  min : JNum
  max : JNum
  skewness : JNum
  kurtosis : JNum
  rrMeanMs : JNum
  rrStdMs : JNum
  qrsWidthMs : JNum
  lowFreqPowerRatio : JNum
  midFreqPowerRatio : JNum
  highFreqPowerRatio : JNum
  spectralCentroidHz : JNum
  spectralEntropy : JNum
  veryLowFreqPowerRatio : JNum
  motionArtifactIndex : JNum
  baselineDriftRatio : JNum
  signalQualityScore : JNum
  hrvDailyRmssd : JNum
  signalQuality : SignalQuality
deriving DecidableEq

/-- `evaluateSignalQuality` from `src/api/client.ts` (the extended revision).
The source destructures with `= 0` defaults, which only apply to `undefined`
fields; at its sole call site (inside `normalizeFeatures`) every field of the
argument has already been produced by `coerceNumber`, so no field is ever
`undefined` and the defaults never fire.  Each comparison is JavaScript's,
hence `false` on `NaN`. -/
def evaluateSignalQuality (f : EcgFeatureSet) : SignalQuality :=
  if jge f.signalQualityScore (3/4) && jle f.motionArtifactIndex (7/20) then .good
  else if jge f.signalQualityScore (1/2) && jle f.motionArtifactIndex (3/5) then .medium
  else if jge f.signalQualityScore (1/2) then .medium
  else if jlt f.peakCount 10 || jlt f.std (1/20) || jlt f.estimatedBpm 40 || jgt f.estimatedBpm 160 then .poor
  else if jlt f.peakCount 25 || jlt f.std (2/25) then .medium
  else .good

/-- An untyped backend record: a total map from keys to raw values, with
`JVal.undef` standing for an absent key. -/
abbrev Payload := String → JVal

/-- One field read of `normalizeFeatures`:
`coerceNumber(payload.Pascal ?? payload.camel)`. -/
def lookup2 (p : Payload) (pascal camel : String) : JNum :=
  coerceNumber (jcoalesce (p pascal) (p camel))

/-- `normalizeFeatures` from `src/api/client.ts` (the extended revision).
Each feature is read under its PascalCase key, falling back to the camelCase
key via `??`, then number-coerced.  `signalQualityScore` falls back to
`Math.max(0, 1 - motionArtifactIndex)` when the raw score is not `> 0`.
The `hrv` argument models the optional `hrv` parameter (`hrv ?? ...`).
The record is first built with placeholder `signalQuality: 'good'`, then the
classifier runs on the built record, exactly as in the source. -/
def normalizeFeatures (p : Payload) (hrv : Option ℚ) : EcgFeatureSet :=
  let rrMeanMs := lookup2 p "RrMeanMs" "rrMeanMs"
  let rrStdMs := lookup2 p "RrStdMs" "rrStdMs"
  let qrsWidthMs := lookup2 p "QrsWidthMs" "qrsWidthMs"
  let lowFreqPowerRatio := lookup2 p "LowFreqPowerRatio" "lowFreqPowerRatio"
  let midFreqPowerRatio := lookup2 p "MidFreqPowerRatio" "midFreqPowerRatio"
  let highFreqPowerRatio := lookup2 p "HighFreqPowerRatio" "highFreqPowerRatio"
  let veryLowFreqPowerRatio := lookup2 p "VeryLowFreqPowerRatio" "veryLowFreqPowerRatio"
  let spectralCentroidHz := lookup2 p "SpectralCentroidHz" "spectralCentroidHz"
  let spectralEntropy := lookup2 p "SpectralEntropy" "spectralEntropy"
  let motionArtifactIndex := lookup2 p "MotionArtifactIndex" "motionArtifactIndex"
  let baselineDriftRatio := lookup2 p "BaselineDriftRatio" "baselineDriftRatio"
  let rawSignalQualityScore := lookup2 p "SignalQualityScore" "signalQualityScore"
  let signalQualityScore :=
    if jgt rawSignalQualityScore 0 then rawSignalQualityScore
    else jmax (some 0) (jsub (some 1) motionArtifactIndex)
  let normalized : EcgFeatureSet :=
    { estimatedBpm := lookup2 p "EstimatedBpm" "estimatedBpm"
      peakCount := lookup2 p "PeakCount" "peakCount"
      mean := lookup2 p "Mean" "mean"
      std := lookup2 p "Std" "std"
      rms := lookup2 p "Rms" "rms"
      min := lookup2 p "Min" "min"
      max := lookup2 p "Max" "max"
      skewness := lookup2 p "Skewness" "skewness"
      kurtosis := lookup2 p "Kurtosis" "kurtosis"
      rrMeanMs := rrMeanMs
      rrStdMs := rrStdMs
      qrsWidthMs := qrsWidthMs
      lowFreqPowerRatio := lowFreqPowerRatio
      midFreqPowerRatio := midFreqPowerRatio
      highFreqPowerRatio := highFreqPowerRatio
      spectralCentroidHz := spectralCentroidHz
      spectralEntropy := spectralEntropy
      veryLowFreqPowerRatio := veryLowFreqPowerRatio
      motionArtifactIndex := motionArtifactIndex
      baselineDriftRatio := baselineDriftRatio
      signalQualityScore := signalQualityScore
      hrvDailyRmssd :=
        match hrv with
        | some h => some h
        | none => lookup2 p "HrvDailyRmssd" "hrvDailyRmssd"
      signalQuality := .good }
  { normalized with signalQuality := evaluateSignalQuality normalized }

example : (normalizeFeatures (fun _ => JVal.undef) none).signalQualityScore = some 1 := by
  with_unfolding_all decide

example : (normalizeFeatures (fun _ => JVal.undef) none).signalQuality = .good := by
  with_unfolding_all decide

/-- `VerifyComparison` from `src/types.ts`. -/
structure VerifyComparison where
  id : String
  sessionLabel : String
  timestampLabel : String
  probability : ℚ
deriving DecidableEq

/-- The ground-truth label attached to a verify attempt:
`'genuine' | 'impostor'`. -/
inductive GroundTruth where
  | genuine
  | impostor
deriving DecidableEq

/-- `VerifyAttempt` from `src/types.ts`.  Optional fields are `Option`s. -/
structure VerifyAttempt where
  id : String
  participantId : String
  «alias» : Option String
  timestamp : String
  score : ℚ
  threshold : ℚ
  passed : Bool
  label : Option GroundTruth
  notes : Option String
  hrv : Option ℚ
  comparisons : List VerifyComparison
deriving DecidableEq

/-! ## Attempt Ledger (`App.tsx`) -/

/-- `verifyMutation.onSuccess` in `App.tsx`:
`setAttemptLogs((prev) => [attempt, ...prev].slice(0, 400))`. -/
def recordAttempt (attempt : VerifyAttempt) (prev : List VerifyAttempt) : List VerifyAttempt :=
  (attempt :: prev).take 400

/-- `handleLabelUpdate` in `App.tsx`, restricted to the attempt-log update:
`prev.map((a) => (a.id === attemptId ? { ...a, label, notes } : a))`. -/
def relabelAttempt (attemptId : String) (lab : GroundTruth) (notes : Option String)
    (prev : List VerifyAttempt) : List VerifyAttempt :=
  prev.map (fun a => if a.id = attemptId then { a with label := some lab, notes := notes } else a)

/-! ## Analytics Engine (`AnalyticsTab.tsx`) -/

/-- `attempts.filter((attempt) => attempt.label === 'genuine')`. -/
def genuineAttempts (attempts : List VerifyAttempt) : List VerifyAttempt :=
  attempts.filter (fun a => decide (a.label = some .genuine))

/-- `attempts.filter((attempt) => attempt.label === 'impostor')`. -/
def impostorAttempts (attempts : List VerifyAttempt) : List VerifyAttempt :=
  attempts.filter (fun a => decide (a.label = some .impostor))

/-- `far` in `AnalyticsTab.tsx`: the impostor pass count over the impostor
count, guarded by the truthiness of `impostorAttempts.length`. -/
def far (attempts : List VerifyAttempt) : ℚ :=
  if (impostorAttempts attempts).length ≠ 0 then
    (((impostorAttempts attempts).filter (fun a => a.passed)).length : ℚ) /
      ((impostorAttempts attempts).length : ℚ)
  else 0

/-- `frr` in `AnalyticsTab.tsx`: the genuine fail count over the genuine
count, guarded by the truthiness of `genuineAttempts.length`. -/
def frr (attempts : List VerifyAttempt) : ℚ :=
  if (genuineAttempts attempts).length ≠ 0 then
    (((genuineAttempts attempts).filter (fun a => !a.passed)).length : ℚ) /
      ((genuineAttempts attempts).length : ℚ)
  else 0

/-- `eer` in `AnalyticsTab.tsx`: `(far + frr) / 2`. -/
def eer (attempts : List VerifyAttempt) : ℚ :=
  (far attempts + frr attempts) / 2

/-! ## Continuous-Monitor Summarizer (`ContinuousMonitor.tsx`) -/

/-- `ContinuousVerifySample` from `src/types.ts`. -/
structure ContinuousVerifySample where
  windowStartUtc : String
  windowEndUtc : String
  score : ℚ
  passes : Bool
deriving DecidableEq

/-- `ContinuousVerifyResponse` from `src/types.ts`. -/
structure ContinuousVerifyResponse where
  authenticated : Bool
  rollingMeanScore : ℚ
  rollingWorstScore : ℚ
  samples : List ContinuousVerifySample
deriving DecidableEq

/-- The summary object computed in `ContinuousMonitor.tsx`.  `windowRange`
holds the raw first-window start and last-window end (the source feeds them
through a date formatter purely for display). -/
structure ContinuousSummary where
  count : ℕ
  passCount : ℕ
  failCount : ℕ
  passRate : ℚ
  windowRange : Option (String × String)
deriving DecidableEq

/-- The `summary` memo in `ContinuousMonitor.tsx`:
`samples = latestResult?.samples ?? []`, `count = samples.length`,
`passCount = samples.filter((s) => s.passes).length`,
`failCount = count - passCount`,
`passRate = count > 0 ? passCount / count : 0`, and `windowRange` spans
`samples[0].windowStartUtc` to `samples[count - 1].windowEndUtc` when
nonempty, else `null`. -/
def continuousSummary (latestResult : Option ContinuousVerifyResponse) : ContinuousSummary :=
  let samples := (latestResult.map (·.samples)).getD []
  let count := samples.length
  let passCount := (samples.filter (fun s => s.passes)).length
  { count := count
    passCount := passCount
    failCount := count - passCount
    passRate := if 0 < count then (passCount : ℚ) / (count : ℚ) else 0
    windowRange :=
      match samples.head?, samples.getLast? with
      | some first, some last => some (first.windowStartUtc, last.windowEndUtc)
      | _, _ => none }

/-! ## Session Normalizer, record level (`src/api/client.ts`, extended
revision): `sanitizeString`, `adaptMetadata`, `adaptWaveformPreview`,
`adaptTags`, `adaptCollectResponse`. -/

/-- `SessionMetadata` (both the server-side and the normalized shape carry
the same four optional text fields). -/
structure SessionMetadata where
  activityLabel : Option String
  stressLevel : Option String
  sensorPlacement : Option String
  deviceModel : Option String
deriving DecidableEq

/-- `CollectSessionApiResponse` from `src/api/client.ts` (extended
revision).  The declared-`number` top-level quality fields are kept as raw
`JVal`s because the adapter number-coerces them before use; `tags` elements
may be `null` (`Option String` inside the list). -/
structure CollectSessionApiResponse where
  documentId : String
  fitbitUserId : String
  ecgStartTime : Option String
  hrvDailyRmssd : Option ℚ
  features : Payload
  metadata : Option SessionMetadata
  waveformPreview : Option (List JVal)
  signalQualityScore : JVal
  motionArtifactIndex : JVal
  baselineDriftRatio : JVal
  samplingHz : JVal
  scalingFactor : JVal
  tags : Option (List (Option String))
  notes : Option String

/-- `CollectSessionResponse` (= `EcgSessionRecord`) from `src/types.ts`
(extended revision), as actually produced by `adaptCollectResponse`. -/
structure CollectSessionResponse where
  documentId : String
  fitbitUserId : String
  ecgStartTime : Option String
  hrvDailyRmssd : Option ℚ
  features : EcgFeatureSet
  metadata : Option SessionMetadata
  waveformPreview : List JNum
  signalQualityScore : JNum
  motionArtifactIndex : JNum
  baselineDriftRatio : JNum
  samplingHz : JNum
  scalingFactor : JNum
  tags : List String
  notes : Option String

/-- `EcgSessionRecord` is an alias of `CollectSessionResponse` in the
source. -/
abbrev EcgSessionRecord := CollectSessionResponse

/-- `sanitizeString`: `undefined` on `null`/`undefined`, else the trimmed
string when nonempty, else `undefined`. -/
def sanitizeString (value : Option String) : Option String :=
  match value with
  | none => none
  | some s => if s.trim.length > 0 then some s.trim else none

/-- `adaptMetadata`: sanitize each field, keep the record only if some field
survived (`Object.values(normalized).some(Boolean)`). -/
def adaptMetadata (metadata : Option SessionMetadata) : Option SessionMetadata :=
  match metadata with
  | none => none
  | some m =>
    let normalized : SessionMetadata :=
      { activityLabel := sanitizeString m.activityLabel
        stressLevel := sanitizeString m.stressLevel
        sensorPlacement := sanitizeString m.sensorPlacement
        deviceModel := sanitizeString m.deviceModel }
    if normalized.activityLabel.isSome || normalized.stressLevel.isSome ||
        normalized.sensorPlacement.isSome || normalized.deviceModel.isSome then
      some normalized
    else none

/-- `adaptWaveformPreview`: `[]` unless an array arrives, else each element
number-coerced. -/
def adaptWaveformPreview (preview : Option (List JVal)) : List JNum :=
  match preview with
  | none => []
  | some l => l.map coerceNumber

/-- `adaptTags`: `[]` unless an array arrives, else sanitize each tag and
keep only the surviving nonempty strings. -/
def adaptTags (tags : Option (List (Option String))) : List String :=
  match tags with
  | none => []
  | some ts => ts.filterMap sanitizeString

/-- `adaptCollectResponse` from `src/api/client.ts` (extended revision).
The three top-level quality fields use JavaScript `||`: the number-coerced
backend value when truthy (nonzero, non-`NaN`), else the corresponding
value of the normalized feature set. -/
def adaptCollectResponse (data : CollectSessionApiResponse) : CollectSessionResponse :=
  let features := normalizeFeatures data.features data.hrvDailyRmssd
  let signalQualityScore := coerceNumber data.signalQualityScore
  let motionArtifactIndex := coerceNumber data.motionArtifactIndex
  let baselineDriftRatio := coerceNumber data.baselineDriftRatio
  { documentId := data.documentId
    fitbitUserId := data.fitbitUserId
    ecgStartTime := data.ecgStartTime
    hrvDailyRmssd := data.hrvDailyRmssd
    features := features
    metadata := adaptMetadata data.metadata
    waveformPreview := adaptWaveformPreview data.waveformPreview
    signalQualityScore := jsOr signalQualityScore features.signalQualityScore
    motionArtifactIndex := jsOr motionArtifactIndex features.motionArtifactIndex
    baselineDriftRatio := jsOr baselineDriftRatio features.baselineDriftRatio
    samplingHz := coerceNumber data.samplingHz
    scalingFactor := coerceNumber data.scalingFactor
    tags := adaptTags data.tags
    notes := sanitizeString data.notes }

/-! ## Participant Aggregator (`App.tsx`) -/

/-- `ParticipantModelStatus` from `src/types.ts`. -/
structure ParticipantModelStatus where
  trainedPairs : ℕ
  lastTrainedAt : Option String
  accuracy : Option ℚ
  auc : Option ℚ
  f1 : Option ℚ
deriving DecidableEq

/-- `Participant` from `src/types.ts`.  `buildParticipantsFromSessions`
leaves `alias` and `modelStatus` unset (`undefined`). -/
structure Participant where
  id : String
  «alias» : Option String
  sessionCount : ℕ
  lastSessionAt : Option String
  enrollmentProgress : ℚ
  modelStatus : Option ParticipantModelStatus
deriving DecidableEq

/-- `progressFromSessions` in `App.tsx`: `Math.min(1, count / 12)`. -/
def progressFromSessions (count : ℕ) : ℚ :=
  if (count : ℚ) / 12 ≤ 1 then (count : ℚ) / 12 else 1

/-- The value type of the `grouped` map in `buildParticipantsFromSessions`. -/
structure GroupInfo where
  sessionCount : ℕ
  lastSessionAt : Option String
deriving DecidableEq

/-- JavaScript truthiness of an optional string (`undefined` and the empty
string are falsy). -/
def strTruthy : Option String → Bool
  | none => false
  | some s => decide (s ≠ "")

/-- `Map.prototype.set` on an insertion-ordered association list: replace in
place when the key is present, else append. -/
def mapSet (m : List (String × GroupInfo)) (k : String) (v : GroupInfo) :
    List (String × GroupInfo) :=
  if m.any (fun e => decide (e.1 = k)) then
    m.map (fun e => if e.1 = k then (k, v) else e)
  else m ++ [(k, v)]

/-- `Map.prototype.get` on the association list. -/
def mapGet (m : List (String × GroupInfo)) (k : String) : Option GroupInfo :=
  (m.find? (fun e => decide (e.1 = k))).map Prod.snd

/-- One iteration of the `sessions.forEach` loop in
`buildParticipantsFromSessions`: skip a falsy `fitbitUserId`, bump the
session count, update `lastSessionAt` when a truthy `ecgStartTime` beats the
stored one (timestamps are compared through `Date.getTime`, modelled by the
ambient `timeOf`), and write the entry back. -/
def groupStep (timeOf : String → ℤ) (m : List (String × GroupInfo))
    (session : EcgSessionRecord) : List (String × GroupInfo) :=
  if session.fitbitUserId = "" then m
  else
    let entry := (mapGet m session.fitbitUserId).getD { sessionCount := 0, lastSessionAt := none }
    let entry := { entry with sessionCount := entry.sessionCount + 1 }
    let entry :=
      match session.ecgStartTime with
      | none => entry
      | some t =>
        if t = "" then entry
        else if !strTruthy entry.lastSessionAt then { entry with lastSessionAt := some t }
        else if timeOf ((entry.lastSessionAt).getD "") < timeOf t then
          { entry with lastSessionAt := some t }
        else entry
    mapSet m session.fitbitUserId entry

/-- `buildParticipantsFromSessions` in `App.tsx`: fold the sessions into the
insertion-ordered `grouped` map, then project each entry to a
`Participant`. -/
def buildParticipantsFromSessions (timeOf : String → ℤ)
    (sessions : List EcgSessionRecord) : List Participant :=
  let grouped := sessions.foldl (groupStep timeOf) []
  grouped.map (fun e =>
    { id := e.1
      «alias» := none
      sessionCount := e.2.sessionCount
      lastSessionAt := e.2.lastSessionAt
      enrollmentProgress := progressFromSessions e.2.sessionCount
      modelStatus := none })

/-! ## Payload builders and concrete sample data used by the theorems -/

/-- A raw backend record carrying the given feature values under PascalCase
keys only; every other key (in particular every camelCase spelling) is
absent.  `vals` is indexed by the camelCase field name. -/
def pascalOnly (vals : String → JVal) : Payload := fun k =>
  match k with
  | "EstimatedBpm" => vals "estimatedBpm"
  | "PeakCount" => vals "peakCount"
  | "Mean" => vals "mean"
  | "Std" => vals "std"
  | "Rms" => vals "rms"
  | "Min" => vals "min"
  | "Max" => vals "max"
  | "Skewness" => vals "skewness"
  | "Kurtosis" => vals "kurtosis"
  | "RrMeanMs" => vals "rrMeanMs"
  | "RrStdMs" => vals "rrStdMs"
  | "QrsWidthMs" => vals "qrsWidthMs"
  | "LowFreqPowerRatio" => vals "lowFreqPowerRatio"
  | "MidFreqPowerRatio" => vals "midFreqPowerRatio"
  | "HighFreqPowerRatio" => vals "highFreqPowerRatio"
  | "VeryLowFreqPowerRatio" => vals "veryLowFreqPowerRatio"
  | "SpectralCentroidHz" => vals "spectralCentroidHz"
  | "SpectralEntropy" => vals "spectralEntropy"
  | "MotionArtifactIndex" => vals "motionArtifactIndex"
  | "BaselineDriftRatio" => vals "baselineDriftRatio"
  | "SignalQualityScore" => vals "signalQualityScore"
  | "HrvDailyRmssd" => vals "hrvDailyRmssd"
  | _ => JVal.undef

/-- The same record carried under camelCase keys only. -/
def camelOnly (vals : String → JVal) : Payload := fun k =>
  match k with
  | "estimatedBpm" => vals "estimatedBpm"
  | "peakCount" => vals "peakCount"
  | "mean" => vals "mean"
  | "std" => vals "std"
  | "rms" => vals "rms"
  | "min" => vals "min"
  | "max" => vals "max"
  | "skewness" => vals "skewness"
  | "kurtosis" => vals "kurtosis"
  | "rrMeanMs" => vals "rrMeanMs"
  | "rrStdMs" => vals "rrStdMs"
  | "qrsWidthMs" => vals "qrsWidthMs"
  | "lowFreqPowerRatio" => vals "lowFreqPowerRatio"
  | "midFreqPowerRatio" => vals "midFreqPowerRatio"
  | "highFreqPowerRatio" => vals "highFreqPowerRatio"
  | "veryLowFreqPowerRatio" => vals "veryLowFreqPowerRatio"
  | "spectralCentroidHz" => vals "spectralCentroidHz"
  | "spectralEntropy" => vals "spectralEntropy"
  | "motionArtifactIndex" => vals "motionArtifactIndex"
  | "baselineDriftRatio" => vals "baselineDriftRatio"
  | "signalQualityScore" => vals "signalQualityScore"
  | "hrvDailyRmssd" => vals "hrvDailyRmssd"
  | _ => JVal.undef

/-- A payload whose `Std` field is a non-numeric string (its `Number()`
conversion is `NaN`, e.g. the backend sent the string "abc"); everything
else is absent. -/
def badStdPayload : Payload := fun k =>
  if k = "Std" then JVal.str none else JVal.undef

/-- A concrete verify attempt used to instantiate ledger theorems. -/
def sampleAttempt : VerifyAttempt :=
  { id := "attempt-0"
    participantId := "user-1"
    «alias» := none
    timestamp := "2026-02-24T12:00:00.000Z"
    score := 9/10
    threshold := 17/20
    passed := true
    label := none
    notes := none
    hrv := none
    comparisons := [] }

/-- A ledger already holding 400 attempts. -/
def fullLedger : List VerifyAttempt := List.replicate 400 sampleAttempt

/-- A continuous-verify response with three samples whose `passes` flags are
`[true, false, true]`. -/
def threeSampleResponse : ContinuousVerifyResponse :=
  { authenticated := false
    rollingMeanScore := 4/5
    rollingWorstScore := 3/5
    samples :=
      [ { windowStartUtc := "2026-02-24T12:00:00Z", windowEndUtc := "2026-02-24T12:15:00Z"
          score := 9/10, passes := true }
      , { windowStartUtc := "2026-02-24T12:05:00Z", windowEndUtc := "2026-02-24T12:20:00Z"
          score := 3/5, passes := false }
      , { windowStartUtc := "2026-02-24T12:10:00Z", windowEndUtc := "2026-02-24T12:25:00Z"
          score := 19/20, passes := true } ] }


/-- The 22 numeric fields of a feature set, listed for quantification. -/
def numericFields (f : EcgFeatureSet) : List JNum :=
  [ f.estimatedBpm, f.peakCount, f.mean, f.std, f.rms, f.min, f.max,
    f.skewness, f.kurtosis, f.rrMeanMs, f.rrStdMs, f.qrsWidthMs,
    f.lowFreqPowerRatio, f.midFreqPowerRatio, f.highFreqPowerRatio,
    f.spectralCentroidHz, f.spectralEntropy, f.veryLowFreqPowerRatio,
    f.motionArtifactIndex, f.baselineDriftRatio, f.signalQualityScore,
    f.hrvDailyRmssd ]

/-! ## Theorems -/

/-- C5: the Attempt Ledger never holds more than 400 attempts: `record`
prepends and truncates to 400, so recording into a full 400-entry ledger
keeps exactly 400 entries, the new attempt at the head, the oldest entry
evicted. -/
theorem c5_ledger_cap (a : VerifyAttempt) (l : List VerifyAttempt)
    (h : l.length = 400) :
    recordAttempt a l = a :: l.dropLast ∧
    (recordAttempt a l).length = 400 ∧
    (recordAttempt a l).head? = some a ∧
    ∀ (a₂ : VerifyAttempt) (l₂ : List VerifyAttempt), (recordAttempt a₂ l₂).length ≤ 400 := by
  refine ⟨?_, ?_, ?_, ?_⟩
  · rw [recordAttempt, show (400 : ℕ) = 399 + 1 from rfl, List.take_succ_cons,
      List.dropLast_eq_take, h]
  · rw [recordAttempt, List.length_take, List.length_cons, h]
    omega
  · rw [recordAttempt, show (400 : ℕ) = 399 + 1 from rfl, List.take_succ_cons, List.head?_cons]
  · intro a₂ l₂
    rw [recordAttempt, List.length_take]
    exact Nat.min_le_left _ _

/-- Witness for C5 at a concrete full ledger of 400 attempts. -/
theorem c5_ledger_cap_witness :
    fullLedger.length = 400 ∧
    (recordAttempt sampleAttempt fullLedger = sampleAttempt :: fullLedger.dropLast ∧
      (recordAttempt sampleAttempt fullLedger).length = 400 ∧
      (recordAttempt sampleAttempt fullLedger).head? = some sampleAttempt ∧
      ∀ (a₂ : VerifyAttempt) (l₂ : List VerifyAttempt), (recordAttempt a₂ l₂).length ≤ 400) :=
  ⟨by rw [fullLedger, List.length_replicate],
    c5_ledger_cap sampleAttempt fullLedger (by rw [fullLedger, List.length_replicate])⟩

/-- C6: `relabel` keeps the ledger's length and order; the attempt whose
identity matches gets exactly its `label` and `notes` replaced, every other
field and every other attempt is untouched; when no identity matches the
ledger is unchanged. -/
theorem c6_relabel_frame (attemptId : String) (lab : GroundTruth)
    (notes : Option String) (l : List VerifyAttempt) :
    (relabelAttempt attemptId lab notes l).length = l.length ∧
    (∀ (i : ℕ) (a : VerifyAttempt), l.get? i = some a →
      ∃ b : VerifyAttempt, (relabelAttempt attemptId lab notes l).get? i = some b ∧
        b.id = a.id ∧ b.participantId = a.participantId ∧ b.«alias» = a.«alias» ∧
        b.timestamp = a.timestamp ∧ b.score = a.score ∧ b.threshold = a.threshold ∧
        b.passed = a.passed ∧ b.hrv = a.hrv ∧ b.comparisons = a.comparisons ∧
        (a.id = attemptId → b.label = some lab ∧ b.notes = notes) ∧
        (a.id ≠ attemptId → b = a)) ∧
    ((∀ a ∈ l, a.id ≠ attemptId) → relabelAttempt attemptId lab notes l = l) := by
  refine ⟨by simp [relabelAttempt], ?_, ?_⟩
  · intro i a ha
    refine ⟨if a.id = attemptId then { a with label := some lab, notes := notes } else a, ?_, ?_⟩
    · rw [relabelAttempt, List.get?_map, ha]
      rfl
    · by_cases hid : a.id = attemptId <;> simp [hid]
  · intro hnone
    rw [relabelAttempt]
    have hcongr : ∀ a ∈ l,
        (if a.id = attemptId then { a with label := some lab, notes := notes } else a) = id a :=
      fun a ha => by simp [hnone a ha]
    rw [List.map_congr_left hcongr, List.map_id]

/-- C9: the Continuous-Monitor summary counts samples, counts passes,
derives `failCount = count - passCount`, and `passRate = passCount / count`
(`0` on an empty sample set); three samples passing `[true, false, true]`
give `passRate = 2/3` and `failCount = 1`. -/
theorem c9_continuous_summary (r : ContinuousVerifyResponse) :
    (continuousSummary (some r)).count = r.samples.length ∧
    (continuousSummary (some r)).passCount = r.samples.countP (fun s => s.passes) ∧
    (continuousSummary (some r)).failCount =
      (continuousSummary (some r)).count - (continuousSummary (some r)).passCount ∧
    (continuousSummary (some r)).passRate =
      ((continuousSummary (some r)).passCount : ℚ) / ((continuousSummary (some r)).count : ℚ) ∧
    (r.samples = [] → (continuousSummary (some r)).passRate = 0) ∧
    (continuousSummary (some threeSampleResponse)).passRate = 2/3 ∧
    (continuousSummary (some threeSampleResponse)).failCount = 1 := by
  refine ⟨rfl, ?_, rfl, ?_, ?_, ?_, ?_⟩
  · simp [continuousSummary, List.countP_eq_length_filter]
  · by_cases hc : 0 < r.samples.length
    · simp [continuousSummary, hc]
    · have hz : r.samples.length = 0 := Nat.eq_zero_of_not_pos hc
      have he : r.samples = [] := List.length_eq_zero.mp hz
      simp [continuousSummary, he]
  · intro he
    simp [continuousSummary, he]
  · with_unfolding_all decide
  · with_unfolding_all decide

/-- C1: over any attempt list, `FAR` is the fraction of impostor-labeled
attempts that passed, `FRR` the fraction of genuine-labeled attempts that
failed (each `0` when its labeled class is empty — in `ℚ`, division by the
zero count also yields `0`, so the rate equals the quotient of counts
unconditionally), `EER = (FAR + FRR) / 2`, and unlabeled attempts contribute
to neither rate (dropping them changes nothing). -/
theorem c1_analytics_rates (attempts : List VerifyAttempt) :
    far attempts =
      ((attempts.countP (fun a => decide (a.label = some .impostor ∧ a.passed = true))) : ℚ) /
        ((attempts.countP (fun a => decide (a.label = some .impostor))) : ℚ) ∧
    frr attempts =
      ((attempts.countP (fun a => decide (a.label = some .genuine ∧ a.passed = false))) : ℚ) /
        ((attempts.countP (fun a => decide (a.label = some .genuine))) : ℚ) ∧
    (attempts.countP (fun a => decide (a.label = some .impostor)) = 0 → far attempts = 0) ∧
    (attempts.countP (fun a => decide (a.label = some .genuine)) = 0 → frr attempts = 0) ∧
    eer attempts = (far attempts + frr attempts) / 2 ∧
    far (attempts.filter (fun a => decide (a.label ≠ none))) = far attempts ∧
    frr (attempts.filter (fun a => decide (a.label ≠ none))) = frr attempts := by
  have hlen : ∀ (lab : GroundTruth) (l : List VerifyAttempt),
      (l.filter (fun a => decide (a.label = some lab))).length =
        l.countP (fun a => decide (a.label = some lab)) :=
    fun lab l => (List.countP_eq_length_filter _ _).symm
  have hpass : ∀ l : List VerifyAttempt,
      ((l.filter (fun a => decide (a.label = some GroundTruth.impostor))).filter
          (fun a => a.passed)).length =
        l.countP (fun a => decide (a.label = some .impostor ∧ a.passed = true)) := by
    intro l
    rw [← List.countP_eq_length_filter, List.countP_filter]
    refine List.countP_congr fun a _ => ?_
    by_cases hp : a.passed <;> by_cases hl : a.label = some GroundTruth.impostor <;>
      simp [hp, hl]
  have hfail : ∀ l : List VerifyAttempt,
      ((l.filter (fun a => decide (a.label = some GroundTruth.genuine))).filter
          (fun a => !a.passed)).length =
        l.countP (fun a => decide (a.label = some .genuine ∧ a.passed = false)) := by
    intro l
    rw [← List.countP_eq_length_filter, List.countP_filter]
    refine List.countP_congr fun a _ => ?_
    by_cases hp : a.passed <;> by_cases hl : a.label = some GroundTruth.genuine <;>
      simp [hp, hl]
  have hdropimp :
      impostorAttempts (attempts.filter (fun a => decide (a.label ≠ none))) =
        impostorAttempts attempts := by
    rw [impostorAttempts, impostorAttempts, List.filter_filter]
    refine List.filter_congr fun a _ => ?_
    cases hl : a.label <;> simp [hl]
  have hdropgen :
      genuineAttempts (attempts.filter (fun a => decide (a.label ≠ none))) =
        genuineAttempts attempts := by
    rw [genuineAttempts, genuineAttempts, List.filter_filter]
    refine List.filter_congr fun a _ => ?_
    cases hl : a.label <;> simp [hl]
  refine ⟨?_, ?_, ?_, ?_, rfl, ?_, ?_⟩
  · rw [far, impostorAttempts]
    by_cases h : (attempts.filter (fun a => decide (a.label = some GroundTruth.impostor))).length = 0
    · have hz : attempts.countP (fun a => decide (a.label = some GroundTruth.impostor)) = 0 :=
        (hlen .impostor attempts).symm.trans h
      rw [if_neg (by simpa using h), hz, Nat.cast_zero, div_zero]
    · rw [if_pos (by simpa using h), hpass, hlen]
  · rw [frr, genuineAttempts]
    by_cases h : (attempts.filter (fun a => decide (a.label = some GroundTruth.genuine))).length = 0
    · have hz : attempts.countP (fun a => decide (a.label = some GroundTruth.genuine)) = 0 :=
        (hlen .genuine attempts).symm.trans h
      rw [if_neg (by simpa using h), hz, Nat.cast_zero, div_zero]
    · rw [if_pos (by simpa using h), hfail, hlen]
  · intro h
    rw [far, if_neg]
    simp only [ne_eq, not_not]
    rw [impostorAttempts, hlen]
    exact h
  · intro h
    rw [frr, if_neg]
    simp only [ne_eq, not_not]
    rw [genuineAttempts, hlen]
    exact h
  · rw [far, far, hdropimp]
  · rw [frr, frr, hdropgen]

/-- C10: in `adaptCollectResponse`, each of the three top-level quality
fields falls back to the normalized feature set's value whenever the
backend's top-level value is absent or number-coerces to `0`, and the
backend's top-level value is used exactly when it coerces to a nonzero
number. -/
theorem c10_collect_quality_fallback (data : CollectSessionApiResponse) :
    (coerceNumber data.signalQualityScore = some 0 →
      (adaptCollectResponse data).signalQualityScore =
        (adaptCollectResponse data).features.signalQualityScore) ∧
    (data.signalQualityScore = JVal.undef →
      (adaptCollectResponse data).signalQualityScore =
        (adaptCollectResponse data).features.signalQualityScore) ∧
    (∀ q : ℚ, q ≠ 0 → coerceNumber data.signalQualityScore = some q →
      (adaptCollectResponse data).signalQualityScore = some q) ∧
    (coerceNumber data.motionArtifactIndex = some 0 →
      (adaptCollectResponse data).motionArtifactIndex =
        (adaptCollectResponse data).features.motionArtifactIndex) ∧
    (data.motionArtifactIndex = JVal.undef →
      (adaptCollectResponse data).motionArtifactIndex =
        (adaptCollectResponse data).features.motionArtifactIndex) ∧
    (∀ q : ℚ, q ≠ 0 → coerceNumber data.motionArtifactIndex = some q →
      (adaptCollectResponse data).motionArtifactIndex = some q) ∧
    (coerceNumber data.baselineDriftRatio = some 0 →
      (adaptCollectResponse data).baselineDriftRatio =
        (adaptCollectResponse data).features.baselineDriftRatio) ∧
    (data.baselineDriftRatio = JVal.undef →
      (adaptCollectResponse data).baselineDriftRatio =
        (adaptCollectResponse data).features.baselineDriftRatio) ∧
    (∀ q : ℚ, q ≠ 0 → coerceNumber data.baselineDriftRatio = some q →
      (adaptCollectResponse data).baselineDriftRatio = some q) := by
  refine ⟨?_, ?_, ?_, ?_, ?_, ?_, ?_, ?_, ?_⟩ <;>
    simp only [adaptCollectResponse]
  · intro h; rw [h]; rfl
  · intro h; rw [h]; rfl
  · intro q hq h; rw [h]; simp [jsOr, hq]
  · intro h; rw [h]; rfl
  · intro h; rw [h]; rfl
  · intro q hq h; rw [h]; simp [jsOr, hq]
  · intro h; rw [h]; rfl
  · intro h; rw [h]; rfl
  · intro q hq h; rw [h]; simp [jsOr, hq]

/-- The derived `signalQualityScore` of a normalized feature set, spelled
out from the definition. -/
theorem normalizeFeatures_score (p : Payload) (hrv : Option ℚ) :
    (normalizeFeatures p hrv).signalQualityScore =
      if jgt (lookup2 p "SignalQualityScore" "signalQualityScore") 0 then
        lookup2 p "SignalQualityScore" "signalQualityScore"
      else jmax (some 0) (jsub (some 1) (lookup2 p "MotionArtifactIndex" "motionArtifactIndex")) :=
  rfl

/-- The `motionArtifactIndex` of a normalized feature set. -/
theorem normalizeFeatures_motion (p : Payload) (hrv : Option ℚ) :
    (normalizeFeatures p hrv).motionArtifactIndex =
      lookup2 p "MotionArtifactIndex" "motionArtifactIndex" :=
  rfl

/-- The classifier only reads numeric fields, so it agrees on two feature
sets whose relevant numeric fields agree. -/
theorem evaluateSignalQuality_congr {f g : EcgFeatureSet}
    (hs : f.signalQualityScore = g.signalQualityScore)
    (hm : f.motionArtifactIndex = g.motionArtifactIndex)
    (hp : f.peakCount = g.peakCount) (hd : f.std = g.std)
    (hb : f.estimatedBpm = g.estimatedBpm) :
    evaluateSignalQuality f = evaluateSignalQuality g := by
  simp only [evaluateSignalQuality, hs, hm, hp, hd, hb]

/-- The stored `signalQuality` of a normalized feature set is the
classifier applied to that feature set (the classifier ignores the
placeholder `signalQuality` field it was computed from). -/
theorem normalizeFeatures_signalQuality (p : Payload) (hrv : Option ℚ) :
    (normalizeFeatures p hrv).signalQuality =
      evaluateSignalQuality (normalizeFeatures p hrv) :=
  evaluateSignalQuality_congr rfl rfl rfl rfl rfl

/-- The first branch of the classifier. -/
theorem evaluateSignalQuality_good (f : EcgFeatureSet)
    (h1 : jge f.signalQualityScore (3/4) = true)
    (h2 : jle f.motionArtifactIndex (7/20) = true) :
    evaluateSignalQuality f = .good := by
  simp only [evaluateSignalQuality, h1, h2]
  rfl

/-- C2: whenever the normalized `signalQualityScore` (including the
derivation fallback) is at least `0.75` and `motionArtifactIndex` is at most
`0.35`, the stored `signalQuality` is `good`: the first branch wins over all
later branches. -/
theorem c2_good_precedence (p : Payload) (hrv : Option ℚ)
    (h1 : jge (normalizeFeatures p hrv).signalQualityScore (3/4) = true)
    (h2 : jle (normalizeFeatures p hrv).motionArtifactIndex (7/20) = true) :
    (normalizeFeatures p hrv).signalQuality = SignalQuality.good := by
  rw [normalizeFeatures_signalQuality]
  exact evaluateSignalQuality_good _ h1 h2

/-- Witness for C2 at the all-absent payload (derived score `1`, motion
index `0`). -/
theorem c2_good_precedence_witness :
    jge (normalizeFeatures (fun _ => JVal.undef) none).signalQualityScore (3/4) = true ∧
    jle (normalizeFeatures (fun _ => JVal.undef) none).motionArtifactIndex (7/20) = true ∧
    (normalizeFeatures (fun _ => JVal.undef) none).signalQuality = SignalQuality.good :=
  ⟨by with_unfolding_all decide, by with_unfolding_all decide,
    c2_good_precedence _ none (by with_unfolding_all decide) (by with_unfolding_all decide)⟩

/-- C3: when the backend supplies no `signalQualityScore` (or a value that
coerces to `0`), the normalizer derives the score as
`max(0, 1 - motionArtifactIndex)`; with the motion index also `0` (absent)
the derived score is `1` and the resulting `signalQuality` is `good`. -/
theorem c3_derived_score (p : Payload) (hrv : Option ℚ)
    (h : lookup2 p "SignalQualityScore" "signalQualityScore" = some 0) :
    (normalizeFeatures p hrv).signalQualityScore =
      jmax (some 0) (jsub (some 1) (lookup2 p "MotionArtifactIndex" "motionArtifactIndex")) ∧
    (∀ q : ℚ, lookup2 p "MotionArtifactIndex" "motionArtifactIndex" = some q →
      (normalizeFeatures p hrv).signalQualityScore =
        some (if (0 : ℚ) ≤ 1 - q then 1 - q else 0)) ∧
    (lookup2 p "MotionArtifactIndex" "motionArtifactIndex" = some 0 →
      (normalizeFeatures p hrv).signalQualityScore = some 1 ∧
      (normalizeFeatures p hrv).signalQuality = SignalQuality.good) := by
  have hfall : (normalizeFeatures p hrv).signalQualityScore =
      jmax (some 0) (jsub (some 1) (lookup2 p "MotionArtifactIndex" "motionArtifactIndex")) := by
    rw [normalizeFeatures_score, h]
    norm_num [jgt]
  refine ⟨hfall, ?_, ?_⟩
  · intro q hq
    rw [hfall, hq]
    rfl
  · intro h0
    have h1 : (normalizeFeatures p hrv).signalQualityScore = some 1 := by
      rw [hfall, h0]
      norm_num [jsub, jmax]
    refine ⟨h1, ?_⟩
    rw [normalizeFeatures_signalQuality]
    refine evaluateSignalQuality_good _ ?_ ?_
    · rw [h1]
      norm_num [jge]
    · rw [normalizeFeatures_motion, h0]
      norm_num [jle]

/-- Witness for C3 at the all-absent payload. -/
theorem c3_derived_score_witness :
    lookup2 (fun _ => JVal.undef) "SignalQualityScore" "signalQualityScore" = some 0 ∧
    ((normalizeFeatures (fun _ => JVal.undef) none).signalQualityScore =
      jmax (some 0)
        (jsub (some 1) (lookup2 (fun _ => JVal.undef) "MotionArtifactIndex" "motionArtifactIndex")) ∧
    (∀ q : ℚ,
      lookup2 (fun _ => JVal.undef) "MotionArtifactIndex" "motionArtifactIndex" = some q →
      (normalizeFeatures (fun _ => JVal.undef) none).signalQualityScore =
        some (if (0 : ℚ) ≤ 1 - q then 1 - q else 0)) ∧
    (lookup2 (fun _ => JVal.undef) "MotionArtifactIndex" "motionArtifactIndex" = some 0 →
      (normalizeFeatures (fun _ => JVal.undef) none).signalQualityScore = some 1 ∧
      (normalizeFeatures (fun _ => JVal.undef) none).signalQuality = SignalQuality.good)) :=
  ⟨rfl, c3_derived_score _ none rfl⟩

/-- C4: a raw record carrying the feature values under PascalCase keys and
the raw record carrying the identical values under camelCase keys normalize
to identical feature sets (including the derived score and the quality
label). -/
theorem c4_pascal_camel_roundtrip (vals : String → JVal) (hrv : Option ℚ) :
    normalizeFeatures (pascalOnly vals) hrv = normalizeFeatures (camelOnly vals) hrv := by
  have hco : ∀ x : JVal, coerceNumber (jcoalesce x JVal.undef) = coerceNumber x := by
    intro x
    cases x <;> rfl
  have h1 : lookup2 (pascalOnly vals) "EstimatedBpm" "estimatedBpm" =
      lookup2 (camelOnly vals) "EstimatedBpm" "estimatedBpm" := by
    show coerceNumber (jcoalesce (vals "estimatedBpm") JVal.undef) =
      coerceNumber (jcoalesce JVal.undef (vals "estimatedBpm"))
    rw [hco]
    rfl
  have h2 : lookup2 (pascalOnly vals) "PeakCount" "peakCount" =
      lookup2 (camelOnly vals) "PeakCount" "peakCount" := by
    show coerceNumber (jcoalesce (vals "peakCount") JVal.undef) =
      coerceNumber (jcoalesce JVal.undef (vals "peakCount"))
    rw [hco]
    rfl
  have h3 : lookup2 (pascalOnly vals) "Mean" "mean" =
      lookup2 (camelOnly vals) "Mean" "mean" := by
    show coerceNumber (jcoalesce (vals "mean") JVal.undef) =
      coerceNumber (jcoalesce JVal.undef (vals "mean"))
    rw [hco]
    rfl
  have h4 : lookup2 (pascalOnly vals) "Std" "std" =
      lookup2 (camelOnly vals) "Std" "std" := by
    show coerceNumber (jcoalesce (vals "std") JVal.undef) =
      coerceNumber (jcoalesce JVal.undef (vals "std"))
    rw [hco]
    rfl
  have h5 : lookup2 (pascalOnly vals) "Rms" "rms" =
      lookup2 (camelOnly vals) "Rms" "rms" := by
    show coerceNumber (jcoalesce (vals "rms") JVal.undef) =
      coerceNumber (jcoalesce JVal.undef (vals "rms"))
    rw [hco]
    rfl
  have h6 : lookup2 (pascalOnly vals) "Min" "min" =
      lookup2 (camelOnly vals) "Min" "min" := by
    show coerceNumber (jcoalesce (vals "min") JVal.undef) =
      coerceNumber (jcoalesce JVal.undef (vals "min"))
    rw [hco]
    rfl
  have h7 : lookup2 (pascalOnly vals) "Max" "max" =
      lookup2 (camelOnly vals) "Max" "max" := by
    show coerceNumber (jcoalesce (vals "max") JVal.undef) =
      coerceNumber (jcoalesce JVal.undef (vals "max"))
    rw [hco]
    rfl
  have h8 : lookup2 (pascalOnly vals) "Skewness" "skewness" =
      lookup2 (camelOnly vals) "Skewness" "skewness" := by
    show coerceNumber (jcoalesce (vals "skewness") JVal.undef) =
      coerceNumber (jcoalesce JVal.undef (vals "skewness"))
    rw [hco]
    rfl
  have h9 : lookup2 (pascalOnly vals) "Kurtosis" "kurtosis" =
      lookup2 (camelOnly vals) "Kurtosis" "kurtosis" := by
    show coerceNumber (jcoalesce (vals "kurtosis") JVal.undef) =
      coerceNumber (jcoalesce JVal.undef (vals "kurtosis"))
    rw [hco]
    rfl
  have h10 : lookup2 (pascalOnly vals) "RrMeanMs" "rrMeanMs" =
      lookup2 (camelOnly vals) "RrMeanMs" "rrMeanMs" := by
    show coerceNumber (jcoalesce (vals "rrMeanMs") JVal.undef) =
      coerceNumber (jcoalesce JVal.undef (vals "rrMeanMs"))
    rw [hco]
    rfl
  have h11 : lookup2 (pascalOnly vals) "RrStdMs" "rrStdMs" =
      lookup2 (camelOnly vals) "RrStdMs" "rrStdMs" := by
    show coerceNumber (jcoalesce (vals "rrStdMs") JVal.undef) =
      coerceNumber (jcoalesce JVal.undef (vals "rrStdMs"))
    rw [hco]
    rfl
  have h12 : lookup2 (pascalOnly vals) "QrsWidthMs" "qrsWidthMs" =
      lookup2 (camelOnly vals) "QrsWidthMs" "qrsWidthMs" := by
    show coerceNumber (jcoalesce (vals "qrsWidthMs") JVal.undef) =
      coerceNumber (jcoalesce JVal.undef (vals "qrsWidthMs"))
    rw [hco]
    rfl
  have h13 : lookup2 (pascalOnly vals) "LowFreqPowerRatio" "lowFreqPowerRatio" =
      lookup2 (camelOnly vals) "LowFreqPowerRatio" "lowFreqPowerRatio" := by
    show coerceNumber (jcoalesce (vals "lowFreqPowerRatio") JVal.undef) =
      coerceNumber (jcoalesce JVal.undef (vals "lowFreqPowerRatio"))
    rw [hco]
    rfl
  have h14 : lookup2 (pascalOnly vals) "MidFreqPowerRatio" "midFreqPowerRatio" =
      lookup2 (camelOnly vals) "MidFreqPowerRatio" "midFreqPowerRatio" := by
    show coerceNumber (jcoalesce (vals "midFreqPowerRatio") JVal.undef) =
      coerceNumber (jcoalesce JVal.undef (vals "midFreqPowerRatio"))
    rw [hco]
    rfl
  have h15 : lookup2 (pascalOnly vals) "HighFreqPowerRatio" "highFreqPowerRatio" =
      lookup2 (camelOnly vals) "HighFreqPowerRatio" "highFreqPowerRatio" := by
    show coerceNumber (jcoalesce (vals "highFreqPowerRatio") JVal.undef) =
      coerceNumber (jcoalesce JVal.undef (vals "highFreqPowerRatio"))
    rw [hco]
    rfl
  have h16 : lookup2 (pascalOnly vals) "VeryLowFreqPowerRatio" "veryLowFreqPowerRatio" =
      lookup2 (camelOnly vals) "VeryLowFreqPowerRatio" "veryLowFreqPowerRatio" := by
    show coerceNumber (jcoalesce (vals "veryLowFreqPowerRatio") JVal.undef) =
      coerceNumber (jcoalesce JVal.undef (vals "veryLowFreqPowerRatio"))
    rw [hco]
    rfl
  have h17 : lookup2 (pascalOnly vals) "SpectralCentroidHz" "spectralCentroidHz" =
      lookup2 (camelOnly vals) "SpectralCentroidHz" "spectralCentroidHz" := by
    show coerceNumber (jcoalesce (vals "spectralCentroidHz") JVal.undef) =
      coerceNumber (jcoalesce JVal.undef (vals "spectralCentroidHz"))
    rw [hco]
    rfl
  have h18 : lookup2 (pascalOnly vals) "SpectralEntropy" "spectralEntropy" =
      lookup2 (camelOnly vals) "SpectralEntropy" "spectralEntropy" := by
    show coerceNumber (jcoalesce (vals "spectralEntropy") JVal.undef) =
      coerceNumber (jcoalesce JVal.undef (vals "spectralEntropy"))
    rw [hco]
    rfl
  have h19 : lookup2 (pascalOnly vals) "MotionArtifactIndex" "motionArtifactIndex" =
      lookup2 (camelOnly vals) "MotionArtifactIndex" "motionArtifactIndex" := by
    show coerceNumber (jcoalesce (vals "motionArtifactIndex") JVal.undef) =
      coerceNumber (jcoalesce JVal.undef (vals "motionArtifactIndex"))
    rw [hco]
    rfl
  have h20 : lookup2 (pascalOnly vals) "BaselineDriftRatio" "baselineDriftRatio" =
      lookup2 (camelOnly vals) "BaselineDriftRatio" "baselineDriftRatio" := by
    show coerceNumber (jcoalesce (vals "baselineDriftRatio") JVal.undef) =
      coerceNumber (jcoalesce JVal.undef (vals "baselineDriftRatio"))
    rw [hco]
    rfl
  have h21 : lookup2 (pascalOnly vals) "SignalQualityScore" "signalQualityScore" =
      lookup2 (camelOnly vals) "SignalQualityScore" "signalQualityScore" := by
    show coerceNumber (jcoalesce (vals "signalQualityScore") JVal.undef) =
      coerceNumber (jcoalesce JVal.undef (vals "signalQualityScore"))
    rw [hco]
    rfl
  have h22 : lookup2 (pascalOnly vals) "HrvDailyRmssd" "hrvDailyRmssd" =
      lookup2 (camelOnly vals) "HrvDailyRmssd" "hrvDailyRmssd" := by
    show coerceNumber (jcoalesce (vals "hrvDailyRmssd") JVal.undef) =
      coerceNumber (jcoalesce JVal.undef (vals "hrvDailyRmssd"))
    rw [hco]
    rfl
  simp only [normalizeFeatures]
  rw [h1, h2, h3, h4, h5, h6, h7, h8, h9, h10, h11, h12, h13, h14, h15, h16, h17, h18, h19, h20, h21, h22]

/-- Every value that is not a non-numeric string number-coerces to an actual
(non-`NaN`) number. -/
theorem coerceNumber_isSome {x : JVal} (hx : x ≠ JVal.str none) :
    (coerceNumber x).isSome = true := by
  cases x with
  | num q => rfl
  | str o =>
    cases o with
    | none => exact absurd rfl hx
    | some q => rfl
  | nullv => rfl
  | undef => rfl
  | other => rfl

/-- A normalizer field read yields an actual number whenever the payload
holds no non-numeric string. -/
theorem lookup2_isSome (p : Payload) (h : ∀ k, p k ≠ JVal.str none)
    (k1 k2 : String) : (lookup2 p k1 k2).isSome = true := by
  rw [lookup2, jcoalesce]
  split
  · exact coerceNumber_isSome (h k2)
  · exact coerceNumber_isSome (h k1)

/-- C8 counterexample: a non-numeric string (e.g. "abc", whose `Number()`
conversion is `NaN`) in a numeric field is NOT coerced to `0` — it becomes
`NaN` (`none`), and that `NaN` survives into the normalized output's `std`
field. -/
theorem c8_counterexample :
    coerceNumber (JVal.str none) ≠ some 0 ∧
    (normalizeFeatures badStdPayload none).std = (none : JNum) := by
  constructor
  · with_unfolding_all decide
  · with_unfolding_all decide

/-- C8 (amended): a malformed value that is neither a number nor a string
coerces to `0`; string values go through JavaScript `Number`, so a
non-numeric string yields `NaN` instead — and whenever the payload holds no
non-numeric string, every numeric field of the normalized output is an
actual (non-`NaN`) number. -/
theorem c8_coercion_amended (p : Payload) (hrv : Option ℚ)
    (h : ∀ k, p k ≠ JVal.str none) :
    (∀ x ∈ numericFields (normalizeFeatures p hrv), x.isSome = true) ∧
    (∀ v : JVal, (∀ q : ℚ, v ≠ JVal.num q) → (∀ o : Option ℚ, v ≠ JVal.str o) →
      coerceNumber v = some 0) := by
  constructor
  · intro x hx
    simp only [numericFields, List.mem_cons, List.not_mem_nil, or_false] at hx
    rcases hx with rfl | rfl | rfl | rfl | rfl | rfl | rfl | rfl | rfl | rfl | rfl | rfl |
      rfl | rfl | rfl | rfl | rfl | rfl | rfl | rfl | rfl | rfl
    case inl => exact lookup2_isSome p h _ _
    case inr.inl => exact lookup2_isSome p h _ _
    all_goals try exact lookup2_isSome p h _ _
    -- remaining: the derived signalQualityScore and hrvDailyRmssd
    · rw [normalizeFeatures_score]
      split
      · exact lookup2_isSome p h _ _
      · obtain ⟨q, hq⟩ := Option.isSome_iff_exists.mp (lookup2_isSome p h
          "MotionArtifactIndex" "motionArtifactIndex")
        rw [hq]
        rfl
    · cases hrv with
      | some hq => rfl
      | none => exact lookup2_isSome p h "HrvDailyRmssd" "hrvDailyRmssd"
  · intro v hnum hstr
    cases v with
    | num q => exact absurd rfl (hnum q)
    | str o => exact absurd rfl (hstr o)
    | nullv => rfl
    | undef => rfl
    | other => rfl

/-- Witness for the amended C8 at a payload of non-string malformed values
(every key holds an object-like value). -/
theorem c8_coercion_amended_witness :
    (∀ k : String, (fun _ => JVal.other) k ≠ JVal.str none) ∧
    ((∀ x ∈ numericFields (normalizeFeatures (fun _ => JVal.other) none), x.isSome = true) ∧
    (∀ v : JVal, (∀ q : ℚ, v ≠ JVal.num q) → (∀ o : Option ℚ, v ≠ JVal.str o) →
      coerceNumber v = some 0)) :=
  ⟨fun _ hcon => JVal.noConfusion hcon,
    c8_coercion_amended (fun _ => JVal.other) none (fun _ hcon => JVal.noConfusion hcon)⟩

/-- `mapSet` keeps the key sequence when the key is present and appends the
key otherwise. -/
theorem keys_mapSet (m : List (String × GroupInfo)) (k : String) (v : GroupInfo) :
    (mapSet m k v).map Prod.fst =
      if k ∈ m.map Prod.fst then m.map Prod.fst else m.map Prod.fst ++ [k] := by
  have hiff : (m.any fun e => decide (e.1 = k)) = true ↔ k ∈ m.map Prod.fst := by
    simp only [List.any_eq_true, decide_eq_true_eq, List.mem_map]
  rw [mapSet]
  by_cases h : k ∈ m.map Prod.fst
  · rw [if_pos (hiff.mpr h), if_pos h, List.map_map]
    refine List.map_congr_left fun e he => ?_
    by_cases hek : e.1 = k <;> simp [hek]
  · rw [if_neg (fun hc => h (hiff.mp hc)), if_neg h, List.map_append]
    rfl

/-- One aggregation step appends the session's participant identity to the
key sequence exactly when that identity is nonempty and new. -/
theorem keys_groupStep (timeOf : String → ℤ) (m : List (String × GroupInfo))
    (s : EcgSessionRecord) :
    (groupStep timeOf m s).map Prod.fst =
      if s.fitbitUserId = "" ∨ s.fitbitUserId ∈ m.map Prod.fst then m.map Prod.fst
      else m.map Prod.fst ++ [s.fitbitUserId] := by
  simp only [groupStep]
  by_cases h1 : s.fitbitUserId = ""
  · rw [if_pos h1, if_pos (Or.inl h1)]
  · rw [if_neg h1, keys_mapSet]
    by_cases h2 : s.fitbitUserId ∈ m.map Prod.fst
    · rw [if_pos h2, if_pos (Or.inr h2)]
    · rw [if_neg h2, if_neg (by tauto)]

/-- The folded grouping map's key set is the starting key set together with
the nonempty participant identities of the folded sessions. -/
theorem keys_foldl_toFinset (timeOf : String → ℤ) (l : List EcgSessionRecord) :
    ∀ m : List (String × GroupInfo),
      ((l.foldl (groupStep timeOf) m).map Prod.fst).toFinset =
        (m.map Prod.fst).toFinset ∪
          ((l.map (fun s => s.fitbitUserId)).filter (fun id => decide (id ≠ ""))).toFinset := by
  induction l with
  | nil =>
    intro m
    simp
  | cons s t ih =>
    intro m
    rw [List.foldl_cons, ih (groupStep timeOf m s), keys_groupStep, List.map_cons]
    by_cases h1 : s.fitbitUserId = ""
    · rw [if_pos (Or.inl h1), List.filter_cons_of_neg (by simp [h1])]
    · rw [List.filter_cons_of_pos (by simp [h1]), List.toFinset_cons]
      by_cases h2 : s.fitbitUserId ∈ m.map Prod.fst
      · rw [if_pos (Or.inr h2)]
        ext x
        simp only [Finset.mem_union, Finset.mem_insert, List.mem_toFinset]
        constructor
        · intro hx
          rcases hx with hx | hx
          · exact Or.inl hx
          · exact Or.inr (Or.inr hx)
        · intro hx
          rcases hx with hx | hx | hx
          · exact Or.inl hx
          · exact Or.inl (hx ▸ h2)
          · exact Or.inr hx
      · rw [if_neg (by tauto), List.toFinset_append]
        ext x
        simp only [Finset.mem_union, Finset.mem_insert, List.mem_toFinset,
          List.toFinset_cons, List.toFinset_nil, insert_emptyc_eq, Finset.mem_singleton]
        tauto

/-- Folding sessions into a duplicate-free grouping map keeps the keys
duplicate-free. -/
theorem keys_foldl_nodup (timeOf : String → ℤ) (l : List EcgSessionRecord) :
    ∀ m : List (String × GroupInfo), (m.map Prod.fst).Nodup →
      ((l.foldl (groupStep timeOf) m).map Prod.fst).Nodup := by
  induction l with
  | nil =>
    intro m hm
    simpa using hm
  | cons s t ih =>
    intro m hm
    rw [List.foldl_cons]
    refine ih (groupStep timeOf m s) ?_
    rw [keys_groupStep]
    by_cases h : s.fitbitUserId = "" ∨ s.fitbitUserId ∈ m.map Prod.fst
    · rw [if_pos h]
      exact hm
    · rw [if_neg h, List.nodup_append]
      push_neg at h
      refine ⟨hm, List.nodup_singleton _, fun x hx hk => ?_⟩
      rw [List.mem_singleton] at hk
      exact h.2 (hk ▸ hx)

/-- C7: the aggregated roster holds exactly one entry per distinct nonempty
participant identity in the session list; sessions with an empty identity
are skipped. -/
theorem c7_roster_count (timeOf : String → ℤ) (sessions : List EcgSessionRecord) :
    (buildParticipantsFromSessions timeOf sessions).length =
      (((sessions.map (fun s => s.fitbitUserId)).filter
          (fun id => decide (id ≠ ""))).dedup).length := by
  simp only [buildParticipantsFromSessions, List.length_map]
  have hnodup := keys_foldl_nodup timeOf sessions [] (by simp)
  have hkeys := keys_foldl_toFinset timeOf sessions []
  calc (sessions.foldl (groupStep timeOf) []).length
      = ((sessions.foldl (groupStep timeOf) []).map Prod.fst).length := by
        rw [List.length_map]
    _ = ((sessions.foldl (groupStep timeOf) []).map Prod.fst).toFinset.card :=
        (List.toFinset_card_of_nodup hnodup).symm
    _ = (((sessions.map (fun s => s.fitbitUserId)).filter
          (fun id => decide (id ≠ ""))).toFinset).card := by
        rw [hkeys]
        simp
    _ = (((sessions.map (fun s => s.fitbitUserId)).filter
          (fun id => decide (id ≠ ""))).dedup).length := List.card_toFinset _

end EcgUI
